import Mathlib

/-!
Verification development for the `secure-api-with-cloudfront` repository.

The repository is an AWS CDK application (Python).  Its pieces are embedded
shallowly:

* `src/config.py` — the `Config` class reading `SSM_SECURE_PARAMETER_NAME`
  from the environment.  The environment is modelled as a function
  `String → Option String` (the environment as it stands after
  `load_dotenv`, which itself cannot raise).  A Python attribute read that
  may raise is modelled as `Except String _`, the error string being the
  `ValueError` message.
* `src/src/backend_function/index.py` — the stateless data endpoint's
  `lambda_handler`.  `datetime.datetime.now().strftime(...)` is modelled by
  passing the formatted current time as an explicit argument; the rest of
  the handler is a pure dictionary construction.
* `src/secure_api_with_cloudfront/secure_api_with_cloudfront_stack.py` —
  the CDK stack.  Synthesizing the stack is modelled as building a record
  of the resources the constructor registers, in source order: Lambda
  functions, IAM policy statements attached to roles, API Gateway methods,
  the CloudFront distribution's origin configuration, the request
  authorizer, and the two configured invocations of the
  `update_secure_header` function (the custom resource at deployment and
  the EventBridge Scheduler rate schedule).
* The authorizer Lambda's own handler (`src/custom_authorizer`) is not
  part of the repository's sources; where a claim needs it, it is modelled
  from the spec (marked as such in its doc comment).
-/

/-! ## Config (src/config.py) -/

/-- The `Config` object as built by `Config.__init__`: it stores the raw
result of `os.getenv("SSM_SECURE_PARAMETER_NAME", None)` and nothing else. -/
structure Config where
  ssm_secure_parameter_name_raw : Option String
deriving Repr, DecidableEq

/-- `Config.__init__`: calls `_parse_environment_files()` (a `load_dotenv`
that only populates the environment and cannot raise; the argument `env` is
the environment after that call) and then assigns
`os.getenv("SSM_SECURE_PARAMETER_NAME", None)` to the private attribute. -/
def Config.init (env : String → Option String) : Config :=
  { ssm_secure_parameter_name_raw := env "SSM_SECURE_PARAMETER_NAME" }

/-- `Config.__init__` as a fallible Python call: its body consists of
`load_dotenv` and `os.getenv`, neither of which raises, so the result is
always `Except.ok`. -/
def Config.initE (env : String → Option String) : Except String Config :=
  Except.ok (Config.init env)

/-- Python truthiness of an `Optional[str]` value: `None` and the empty
string are falsy, every other string is truthy. -/
def pyTruthy : Option String → Bool
  | none => false
  | some s => s ≠ ""

/-- The `ssm_secure_parameter_name` property of `Config`:
`if not self._ssm_secure_parameter_name: raise ValueError(...)` then
return the stored value. -/
def Config.ssm_secure_parameter_name (c : Config) : Except String String :=
  if pyTruthy c.ssm_secure_parameter_name_raw then
    Except.ok (c.ssm_secure_parameter_name_raw.getD "")
  else
    Except.error "SSM_SECURE_PARAMETER_NAME is not set."

/-! ## Authorizer decision (spec-modelled) -/

/-- Outcome of the Secret Store (SSM) lookup performed by the authorizer. -/
inductive StoreResult where
  | ok (value : String)
  | unreachable
deriving Repr, DecidableEq

/-- An authorization decision. -/
inductive Decision where
  | allow
  | deny
deriving Repr, DecidableEq

/-- Modelled from the spec: the custom authorizer Lambda's handler
(`src/custom_authorizer`, referenced by the stack at line 52 but absent
from the repository's sources).  Per spec §4.3 and §9, the decision is a
pure function of the presented header value and the Secret Store lookup
result: ALLOW iff the presented value equals the stored value; if the
store lookup errors (store unreachable) the decision is DENY (fail
closed). -/
def authorizerDecision (presented : String) (store : StoreResult) : Decision :=
  match store with
  | .unreachable => .deny
  | .ok expected => if presented = expected then .allow else .deny

/-! ## Stateless data endpoint (src/src/backend_function/index.py) -/

/-- A Lambda proxy response dictionary. -/
structure LambdaResponse where
  statusCode : Nat
  body : String
  headers : List (String × String)
deriving Repr, DecidableEq

/-- Escape one character the way `json.dumps` escapes string content
(quote, backslash, and control characters via \uXXXX; the timestamps the
handler embeds contain none of the latter, but the escaping is modelled
for all inputs). -/
def jsonEscapeChar (c : Char) : String :=
  if c = '"' then "\\\""
  else if c = '\\' then "\\\\"
  else if c.toNat < 32 then
    "\\u" ++ (Nat.toDigits 16 c.toNat).asString.leftpad 4 '0'
  else String.singleton c

/-- Escape a string the way `json.dumps` renders string content. -/
def jsonEscape (s : String) : String :=
  String.join (s.toList.map jsonEscapeChar)

/-- `json.dumps` of the one-key object the handler builds:
`json.dumps({"message": msg})`. -/
def jsonDumpsMessage (msg : String) : String :=
  "\x7b\"message\": \"" ++ jsonEscape msg ++ "\"\x7d"

/-- `lambda_handler(event, context)` of the backend function.  `event` and
`context` are arbitrary; `current_time` is the formatted
`datetime.datetime.now()` value. -/
def lambda_handler {E C : Type} (event : E) (context : C)
    (current_time : String) : LambdaResponse :=
  { statusCode := 200,
    body := jsonDumpsMessage ("Data from API served by Lambda - " ++ current_time),
    headers :=
      [("Access-Control-Allow-Origin", "*"),
       ("Access-Control-Allow-Methods", "OPTIONS, POST"),
       ("Access-Control-Allow-Headers", "Content-Type")] }

/-! ## The CDK stack (src/secure_api_with_cloudfront/secure_api_with_cloudfront_stack.py) -/

/-- An IAM policy statement: a list of actions over a list of resources
(all statements in this stack have the default ALLOW effect). -/
structure PolicyStatement where
  actions : List String
  resources : List String
deriving Repr, DecidableEq

/-- A policy statement attached to a role the stack creates (via
`add_to_role_policy` on a function's role, `add_to_policy` on an explicit
role, an inline policy, or the policy an `AwsCustomResource` derives from
its SDK calls). -/
structure RoleGrant where
  roleId : String
  statement : PolicyStatement
deriving Repr, DecidableEq

/-- A Lambda function registered by the stack. -/
structure FunctionModel where
  id : String
  handler : String
  codeAsset : String
  timeoutSeconds : Nat
  environment : List (String × String)
deriving Repr, DecidableEq

/-- API Gateway authorization type of a method. -/
inductive AuthorizationType where
  | NONE
  | IAM
  | CUSTOM
  | COGNITO
deriving Repr, DecidableEq

/-- The integration behind an API Gateway method. -/
inductive Integration where
  | lambdaBackend (functionId : String)
  | mock
deriving Repr, DecidableEq

/-- A method exposed by the REST API. -/
structure ApiMethod where
  httpMethod : String
  resourcePath : String
  integration : Integration
  authorizationType : AuthorizationType
  authorizerId : Option String
  corsPreflight : Bool
deriving Repr, DecidableEq

/-- The `RequestAuthorizer` construct's configuration. -/
structure RequestAuthorizerModel where
  id : String
  handlerFunctionId : String
  identitySources : List String
  resultsCacheTtlSeconds : Nat
deriving Repr, DecidableEq

/-- The origin configuration of the CloudFront distribution's default
behavior. -/
structure OriginModel where
  originPath : String
  customHeaders : List (String × String)
deriving Repr, DecidableEq

/-- Which trigger causes an invocation of the `update_secure_header`
function (the Rotator). -/
inductive TriggerKind where
  | create
  | scheduled
deriving Repr, DecidableEq

/-- A configured invocation of the Rotator: the trigger and the payload
the invoker is configured to send (`none` when no payload is configured
on the invoker). -/
structure RotatorInvocation where
  trigger : TriggerKind
  payload : Option String
deriving Repr, DecidableEq

/-- The resources the stack's constructor registers. -/
structure StackModel where
  customHeaderKey : String
  secureParameterName : String
  functions : List FunctionModel
  grants : List RoleGrant
  apiMethods : List ApiMethod
  requestAuthorizer : RequestAuthorizerModel
  distributionOrigin : OriginModel
  scheduleRateHours : Nat
  rotatorInvocations : List RotatorInvocation
deriving Repr, DecidableEq

/-- ARN of the imported secure string parameter (`parameter_arn` of the
`StringParameter` import), as a function of the parameter name. -/
def ssmParameterArn (name : String) : String :=
  "arn:aws:ssm:region:account:parameter/" ++ name

/-- ARN of the CloudFront distribution the stack creates
(`distribution_arn` of `MyCloudfrontDistribution`; a deploy-time token,
modelled as an opaque string distinct from every other resource ARN). -/
def distributionArn : String :=
  "arn:aws:cloudfront::account:distribution/MyCloudfrontDistribution"

/-- ARN of the backend Lambda function (`function_arn`, opaque token). -/
def backendFunctionArn : String :=
  "arn:aws:lambda:region:account:function/BackendFunction"

/-- ARN of the `update_secure_header` Lambda function (opaque token). -/
def updateSecureHeaderArn : String :=
  "arn:aws:lambda:region:account:function/UpdateSecureHeaderFunction"

/-- The header name the stack designates, line 27 of the stack source. -/
def custom_header_key : String := "token-from-cloudfront"

/-- The stack's constructor body, given the resolved secure parameter
name (the value `config.ssm_secure_parameter_name` returned).  Each field
is transcribed from the source in order.  CDK-derived facts that the
source invokes: `default_cors_preflight_options` on the `RestApi` makes
CDK add a CORS preflight `OPTIONS` method, backed by a mock integration
and with authorization type NONE, to the root resource and to every
resource added under it; the EventBridge Scheduler `LambdaInvoke` target
is constructed without an `input`, so no payload is configured for the
scheduled invocation. -/
def mkStackResolved (paramName : String) : StackModel :=
  { customHeaderKey := custom_header_key,
    secureParameterName := paramName,
    functions :=
      [{ id := "BackendFunction", handler := "index.lambda_handler",
         codeAsset := "src/backend_function", timeoutSeconds := 2,
         environment := [] },
       { id := "BackendLambdaFunction", handler := "index.lambda_handler",
         codeAsset := "src/custom_authorizer", timeoutSeconds := 2,
         environment :=
           [("SSM_PARAMETER_NAME", paramName),
            ("CUSTOM_HEADER_KEY", custom_header_key)] },
       { id := "UpdateSecureHeaderFunction", handler := "index.lambda_handler",
         codeAsset := "src/update_secure_header", timeoutSeconds := 5,
         environment :=
           [("SSM_PARAMETER_NAME", paramName),
            ("CLOUDFRONT_DISTRIBUTION_ID", "MyCloudfrontDistribution"),
            ("APIGATEWAY_URL", "https://rest-api.example/prod/"),
            ("CUSTOM_HEADER_KEY", custom_header_key)] }],
    grants :=
      [ -- custom_authorizer.add_to_role_policy, lines 60-65
       { roleId := "BackendLambdaFunctionRole",
         statement := { actions := ["ssm:GetParameter"],
                        resources := [ssmParameterArn paramName] } },
       -- apigw_lambda_execution_role inline policy, lines 80-95
       { roleId := "LambdaExecutionRole",
         statement := { actions := ["lambda:InvokeFunction"],
                        resources := [backendFunctionArn] } },
       -- update_secure_header.add_to_role_policy, lines 152-157
       { roleId := "UpdateSecureHeaderFunctionRole",
         statement := { actions := ["ssm:GetParameter", "ssm:PutParameter"],
                        resources := [ssmParameterArn paramName] } },
       -- update_secure_header.add_to_role_policy, lines 159-167
       { roleId := "UpdateSecureHeaderFunctionRole",
         statement := { actions := ["cloudfront:GetDistributionConfig",
                                    "cloudfront:UpdateDistribution"],
                        resources := [distributionArn] } },
       -- custom_resource_role.add_to_policy, lines 176-181
       { roleId := "CustomResourceRole",
         statement := { actions := ["lambda:InvokeFunction"],
                        resources := [updateSecureHeaderArn] } },
       -- AwsCustomResourcePolicy.from_sdk_calls(ANY_RESOURCE), lines 199-201
       { roleId := "CustomResourceRole",
         statement := { actions := ["lambda:Invoke"],
                        resources := ["*"] } },
       -- scheduler_role.add_to_policy, lines 212-217
       { roleId := "SchedulerRole",
         statement := { actions := ["lambda:InvokeFunction"],
                        resources := [updateSecureHeaderArn] } }],
    apiMethods :=
      [ -- CORS preflight added by default_cors_preflight_options (root)
       { httpMethod := "OPTIONS", resourcePath := "/",
         integration := .mock, authorizationType := .NONE,
         authorizerId := none, corsPreflight := true },
       -- CORS preflight added by default_cors_preflight_options (/hello)
       { httpMethod := "OPTIONS", resourcePath := "/hello",
         integration := .mock, authorizationType := .NONE,
         authorizerId := none, corsPreflight := true },
       -- rest_api.root.add_resource("hello").add_method("GET", ...), 107-117
       { httpMethod := "GET", resourcePath := "/hello",
         integration := .lambdaBackend "BackendFunction",
         authorizationType := .CUSTOM,
         authorizerId := some "LambdaHeaderAuthorizer",
         corsPreflight := false }],
    requestAuthorizer :=
      { id := "LambdaHeaderAuthorizer",
        handlerFunctionId := "BackendLambdaFunction",
        identitySources := ["method.request.header." ++ custom_header_key],
        resultsCacheTtlSeconds := 30 },
    distributionOrigin :=
      { originPath := "/prod",
        customHeaders := [(custom_header_key, "test")] },
    scheduleRateHours := 6,
    rotatorInvocations :=
      [ -- AwsCustomResource on_update SDK call, lines 184-203
       { trigger := .create,
         payload := some "\x7b\"RequestType\": \"Create\"\x7d" },
       -- scheduler.Schedule with targets.LambdaInvoke (no input), 219-225
       { trigger := .scheduled, payload := none }] }

/-- The stack constructor as run by `app.py`: it instantiates `Config`
and reads `config.ssm_secure_parameter_name` (line 33), which raises when
the variable is unset; otherwise it registers the resources. -/
def mkStack (env : String → Option String) : Except String StackModel :=
  (Config.init env).ssm_secure_parameter_name.map mkStackResolved

/-- String prefix test (the meaning of `str.startswith(p)`), phrased over
the character list so that it evaluates definitionally. -/
def strStartsWith (s p : String) : Bool :=
  p.toList.isPrefixOf s.toList

/-! ## Claims -/

/-- C1: for every inbound request evaluated by the Authorizer, if the
Secret Store lookup errors (store unreachable), the authorization decision
is DENY, regardless of the presented header value; the Authorizer never
fails open. -/
theorem authorizer_fails_closed (presented : String) :
    authorizerDecision presented StoreResult.unreachable = Decision.deny := rfl

/-- C2 counterexample: the REST API exposes a CORS preflight `OPTIONS`
method on `/hello` (added by `default_cors_preflight_options`) whose
authorization type is NONE, so not every method the stack registers
carries `AuthorizationType.CUSTOM`. -/
theorem cors_preflight_method_not_custom :
    ({ httpMethod := "OPTIONS", resourcePath := "/hello",
       integration := Integration.mock,
       authorizationType := AuthorizationType.NONE,
       authorizerId := none, corsPreflight := true } : ApiMethod) ∈
        (mkStackResolved "secure-param").apiMethods ∧
    AuthorizationType.NONE ≠ AuthorizationType.CUSTOM := by
  decide

/-- C2 (amended): every non-preflight method of the REST API — exactly
the methods with the Lambda backend integration — carries
`AuthorizationType.CUSTOM` with the Lambda header authorizer, so no
request reaches the backend without the authorizer; the auto-generated
CORS preflight `OPTIONS` methods are exposed with authorization NONE but
are served by a mock integration and never reach the backend. -/
theorem backend_methods_custom_authorized (paramName : String)
    (m : ApiMethod) (hm : m ∈ (mkStackResolved paramName).apiMethods)
    (hnp : m.corsPreflight = false) :
    m.authorizationType = AuthorizationType.CUSTOM ∧
    m.authorizerId = some "LambdaHeaderAuthorizer" ∧
    m.integration = Integration.lambdaBackend "BackendFunction" := by
  simp only [mkStackResolved, List.mem_cons, List.not_mem_nil, or_false] at hm
  rcases hm with rfl | rfl | rfl
  · simp at hnp
  · simp at hnp
  · exact ⟨rfl, rfl, rfl⟩

/-- Witness for C2 (amended): the `GET /hello` method. -/
theorem backend_methods_custom_authorized_witness :
    ({ httpMethod := "GET", resourcePath := "/hello",
       integration := Integration.lambdaBackend "BackendFunction",
       authorizationType := AuthorizationType.CUSTOM,
       authorizerId := some "LambdaHeaderAuthorizer",
       corsPreflight := false } : ApiMethod).authorizationType =
        AuthorizationType.CUSTOM ∧
    ({ httpMethod := "GET", resourcePath := "/hello",
       integration := Integration.lambdaBackend "BackendFunction",
       authorizationType := AuthorizationType.CUSTOM,
       authorizerId := some "LambdaHeaderAuthorizer",
       corsPreflight := false } : ApiMethod).authorizerId =
        some "LambdaHeaderAuthorizer" ∧
    ({ httpMethod := "GET", resourcePath := "/hello",
       integration := Integration.lambdaBackend "BackendFunction",
       authorizationType := AuthorizationType.CUSTOM,
       authorizerId := some "LambdaHeaderAuthorizer",
       corsPreflight := false } : ApiMethod).integration =
        Integration.lambdaBackend "BackendFunction" :=
  backend_methods_custom_authorized "secure-param" _ (by decide) rfl

/-- C3 counterexample: constructing `Config` with
`SSM_SECURE_PARAMETER_NAME` unset does not fail — `__init__` only calls
`os.getenv(..., None)` and returns normally, storing `None`. -/
theorem config_init_succeeds_when_unset :
    Config.initE (fun _ => none) =
      Except.ok { ssm_secure_parameter_name_raw := none } := rfl

/-- C3 (amended): constructing `Config` with the variable unset succeeds
(no validation happens in `__init__`); the fail-fast happens at first
use — reading `Config.ssm_secure_parameter_name` with the variable unset
raises `ValueError` rather than returning a value, and the stack, which
reads the property at line 33 of its constructor, therefore fails at
startup. -/
theorem config_fails_fast_on_first_read (env : String → Option String)
    (h : env "SSM_SECURE_PARAMETER_NAME" = none) :
    (Config.initE env).isOk = true ∧
    (Config.init env).ssm_secure_parameter_name =
      Except.error "SSM_SECURE_PARAMETER_NAME is not set." ∧
    (mkStack env).isOk = false := by
  refine ⟨rfl, ?_, ?_⟩ <;>
    simp [Config.init, Config.ssm_secure_parameter_name, pyTruthy, mkStack, h,
      Except.map, Except.isOk, Except.toBool]

/-- Witness for C3 (amended): the everywhere-empty environment. -/
theorem config_fails_fast_on_first_read_witness :
    (Config.initE (fun _ => none)).isOk = true ∧
    (Config.init (fun _ => none)).ssm_secure_parameter_name =
      Except.error "SSM_SECURE_PARAMETER_NAME is not set." ∧
    (mkStack (fun _ => none)).isOk = false :=
  config_fails_fast_on_first_read (fun _ => none) rfl

/-- C4: Secret Store access is restricted by policy exactly as specified.
Filtering the stack's role grants down to statements carrying any `ssm:`
action leaves exactly two: the Authorizer function's role
(`BackendLambdaFunctionRole`) with `ssm:GetParameter` only, and the
Rotator function's role (`UpdateSecureHeaderFunctionRole`) with
`ssm:GetParameter` and `ssm:PutParameter`, each scoped to the single
secure parameter's ARN and to no other resource. -/
theorem ssm_access_restricted (paramName : String) :
    ((mkStackResolved paramName).grants.filter
        (fun g => g.statement.actions.any (fun a => strStartsWith a "ssm:"))) =
      [{ roleId := "BackendLambdaFunctionRole",
         statement := { actions := ["ssm:GetParameter"],
                        resources := [ssmParameterArn paramName] } },
       { roleId := "UpdateSecureHeaderFunctionRole",
         statement := { actions := ["ssm:GetParameter", "ssm:PutParameter"],
                        resources := [ssmParameterArn paramName] } }] := rfl

/-- C5: the Edge Config record is mutated only by the Propagator.
Filtering the stack's role grants down to statements carrying
`cloudfront:UpdateDistribution` or `cloudfront:GetDistributionConfig`
leaves exactly one, attached to the `update_secure_header` function's
role and scoped to the distribution's ARN, so no other role the stack
creates can change the outbound custom header. -/
theorem distribution_update_only_rotator (paramName : String) :
    ((mkStackResolved paramName).grants.filter
        (fun g => g.statement.actions.any
          (fun a => a == "cloudfront:UpdateDistribution" ||
                    a == "cloudfront:GetDistributionConfig"))) =
      [{ roleId := "UpdateSecureHeaderFunctionRole",
         statement := { actions := ["cloudfront:GetDistributionConfig",
                                    "cloudfront:UpdateDistribution"],
                        resources := [distributionArn] } }] := rfl

/-- C6: the CloudFront distribution's origin custom headers map the
designated header name (`custom_header_key = "token-from-cloudfront"`) to
the fixed placeholder string `"test"`; the mapping is a literal,
independent of the secure parameter (hence never the real secret). -/
theorem placeholder_header_at_deployment (paramName otherName : String) :
    custom_header_key = "token-from-cloudfront" ∧
    (mkStackResolved paramName).distributionOrigin.customHeaders =
      [(custom_header_key, "test")] ∧
    (mkStackResolved paramName).distributionOrigin =
      (mkStackResolved otherName).distributionOrigin := ⟨rfl, rfl, rfl⟩

/-- C7 counterexample: the stack configures the scheduled invocation of
the Rotator with no payload at all — the EventBridge Scheduler
`LambdaInvoke` target is built without an `input`, so the periodic
invocation carries no `{"RequestType": "Scheduled"}` (nor any)
discriminator. -/
theorem scheduled_invocation_has_no_payload :
    ({ trigger := TriggerKind.scheduled, payload := none } :
        RotatorInvocation) ∈
      (mkStackResolved "secure-param").rotatorInvocations ∧
    (none : Option String) ≠
      some "\x7b\"RequestType\": \"Scheduled\"\x7d" := by
  decide

/-- C7 (amended): the deployment-time invocation of the Rotator is sent
with payload `{"RequestType": "Create"}`; the periodic scheduled
invocation is configured with no payload, so it carries no `Scheduled`
discriminator (the Rotator must treat the absence of a `Create`
discriminator as the scheduled case). -/
theorem rotator_invocation_payloads (paramName : String) :
    (mkStackResolved paramName).rotatorInvocations =
      [{ trigger := TriggerKind.create,
         payload := some "\x7b\"RequestType\": \"Create\"\x7d" },
       { trigger := TriggerKind.scheduled, payload := none }] := rfl

/-- C8: the request authorizer's results cache TTL is exactly 30
seconds — a bounded freshness window of tens of seconds — so an
authorization decision is never reused beyond that bound. -/
theorem authorizer_results_cache_ttl (paramName : String) :
    (mkStackResolved paramName).requestAuthorizer.resultsCacheTtlSeconds = 30 ∧
    10 ≤ (mkStackResolved paramName).requestAuthorizer.resultsCacheTtlSeconds ∧
    (mkStackResolved paramName).requestAuthorizer.resultsCacheTtlSeconds < 100 :=
  ⟨rfl, by simp [mkStackResolved], by simp [mkStackResolved]⟩

/-- C9: for every event and context, the backend `lambda_handler` returns
(it is a total function of its inputs and the current time) a response
with status code 200 whose body is the JSON object
`{"message": "Data from API served by Lambda - <time>"}`; it touches no
external state, and the result is the same for any other event and
context at the same time. -/
theorem backend_handler_correct {E C E2 C2 : Type}
    (event : E) (context : C) (event2 : E2) (context2 : C2) (t : String) :
    (lambda_handler event context t).statusCode = 200 ∧
    (lambda_handler event context t).body =
      "\x7b\"message\": \"" ++
        jsonEscape ("Data from API served by Lambda - " ++ t) ++ "\"\x7d" ∧
    lambda_handler event context t = lambda_handler event2 context2 t :=
  ⟨rfl, rfl, rfl⟩

/-- C10: an empty-string value of `SSM_SECURE_PARAMETER_NAME` is treated
the same as an absent one — Python's `not` on the empty string is true —
so reading `Config.ssm_secure_parameter_name` with the variable set to
`""` raises `ValueError`, and whenever the property does return a value,
that value is not the empty string (and never `None`). -/
theorem empty_param_name_treated_as_absent (env : String → Option String)
    (s : String)
    (h : (Config.init env).ssm_secure_parameter_name = Except.ok s) :
    (Config.init (fun _ => some "")).ssm_secure_parameter_name =
      Except.error "SSM_SECURE_PARAMETER_NAME is not set." ∧
    s ≠ "" := by
  refine ⟨rfl, ?_⟩
  cases hraw : (Config.init env).ssm_secure_parameter_name_raw with
  | none =>
    simp [Config.ssm_secure_parameter_name, hraw, pyTruthy] at h
  | some v =>
    by_cases hv : v = ""
    · simp [Config.ssm_secure_parameter_name, hraw, pyTruthy, hv] at h
    · simp [Config.ssm_secure_parameter_name, hraw, pyTruthy, hv] at h
      rw [← h]
      exact hv

/-- Witness for C10: an environment where the variable is set to a
nonempty name. -/
theorem empty_param_name_treated_as_absent_witness :
    (Config.init (fun _ => some "")).ssm_secure_parameter_name =
      Except.error "SSM_SECURE_PARAMETER_NAME is not set." ∧
    ("my-secure-parameter" : String) ≠ "" :=
  empty_param_name_treated_as_absent (fun _ => some "my-secure-parameter")
    "my-secure-parameter" (by simp [Config.init, Config.ssm_secure_parameter_name, pyTruthy])
